import Mathlib

/-!
# Verification of the GalleryIndex component

Shallow embedding of the `Gallery` React component
(`src/unnamed/part_001`, lines 556–684): the data model `GalleryImage`,
the query pipeline `filterAndSortImages`, the mutating operations
`toggleFavorite` / `deleteImage` with their write-through persistence via
`saveImages`, and the `loadImages` deserialization path.

Modelling conventions:
* JavaScript `Date` values are represented by their `getTime()` value in
  milliseconds (`Int`); the serialized form (`Date.toJSON`, an ISO-8601
  string) is parsed back by `jsNewDateGetTime`.
* `localStorage` is the persistence collaborator: the component state
  `GalleryState` carries the durable copy under the single fixed key
  `gallery-images` as `storedValue` (the deserialized blob — `JSON.stringify`
  is injective on these records, so the blob is modelled by the list it
  encodes) together with a count of `setItem` calls (`writes`).
* ECMAScript `Array.prototype.sort` is stable (ES2019) and, for a consistent
  comparator `cmp`, produces the unique stable order; it is modelled by
  `List.mergeSort` with `le a b := cmp a b ≤ 0`.
* TypeScript types are erased at runtime, so the `type` field is carried as
  a plain `String`; nothing in the code ever validates it against the
  five-value union.
* The JS string builtins the component calls are embedded in full:
  `toLowerCase` as the Unicode Default Case Conversion (simple mapping
  table, the `İ` special mapping, the Final_Sigma context rule) and
  `trim` over the complete ECMA-262 WhiteSpace/LineTerminator set.
-/

/-- One gallery record, mirroring the `GalleryImage` interface
(`src/unnamed/part_001` lines 556–569).  Optional TS fields are `Option`;
`createdAt : Int` is the `Date` in epoch milliseconds. -/
structure GalleryImage where
  id : String
  url : String
  prompt : String
  type : String
  size : Option String
  quality : Option String
  style : Option String
  scale : Option String
  mode : Option String
  filename : Option String
  createdAt : Int
  isFavorite : Bool
deriving DecidableEq, Repr

/-- Component state: the two image-list `useState` variables together with
the durable copy held by the persistence collaborator (`localStorage` key
`gallery-images`) and a count of writes to it.  The remaining `useState`
variables (`searchQuery`, `filterType`, `sortBy`, `viewMode`, `isLoading`)
are UI concerns passed to the modelled operations as arguments. -/
structure GalleryState where
  images : List GalleryImage
  filteredImages : List GalleryImage
  storedValue : Option (List GalleryImage)
  writes : Nat
deriving Repr

/-! ## JavaScript string builtins used by the component -/

/-- Unicode simple lowercase mapping (Unicode 14.0), compressed into
rules `(lo, hi, stride, delta)`: every code point `n` with
`lo ≤ n ≤ hi` and `(n - lo) % stride = 0` lowercases to `n + delta`.
Code points matched by no rule map to themselves. -/
def simpleLowerRules : List (Nat × Nat × Nat × Int) := [
  (0x41, 0x5a, 1, 32), (0xc0, 0xd6, 1, 32), (0xd8, 0xde, 1, 32),
  (0x100, 0x12e, 2, 1), (0x132, 0x136, 2, 1), (0x139, 0x147, 2, 1),
  (0x14a, 0x176, 2, 1), (0x178, 0x178, 1, -121), (0x179, 0x17d, 2, 1),
  (0x181, 0x181, 1, 210), (0x182, 0x184, 2, 1), (0x186, 0x186, 1, 206),
  (0x187, 0x187, 1, 1), (0x189, 0x18a, 1, 205), (0x18b, 0x18b, 1, 1),
  (0x18e, 0x18e, 1, 79), (0x18f, 0x18f, 1, 202), (0x190, 0x190, 1, 203),
  (0x191, 0x191, 1, 1), (0x193, 0x193, 1, 205), (0x194, 0x194, 1, 207),
  (0x196, 0x196, 1, 211), (0x197, 0x197, 1, 209), (0x198, 0x198, 1, 1),
  (0x19c, 0x19c, 1, 211), (0x19d, 0x19d, 1, 213), (0x19f, 0x19f, 1, 214),
  (0x1a0, 0x1a4, 2, 1), (0x1a6, 0x1a6, 1, 218), (0x1a7, 0x1a7, 1, 1),
  (0x1a9, 0x1a9, 1, 218), (0x1ac, 0x1ac, 1, 1), (0x1ae, 0x1ae, 1, 218),
  (0x1af, 0x1af, 1, 1), (0x1b1, 0x1b2, 1, 217), (0x1b3, 0x1b5, 2, 1),
  (0x1b7, 0x1b7, 1, 219), (0x1b8, 0x1b8, 1, 1), (0x1bc, 0x1bc, 1, 1),
  (0x1c4, 0x1c4, 1, 2), (0x1c5, 0x1c5, 1, 1), (0x1c7, 0x1c7, 1, 2),
  (0x1c8, 0x1c8, 1, 1), (0x1ca, 0x1ca, 1, 2), (0x1cb, 0x1db, 2, 1),
  (0x1de, 0x1ee, 2, 1), (0x1f1, 0x1f1, 1, 2), (0x1f2, 0x1f4, 2, 1),
  (0x1f6, 0x1f6, 1, -97), (0x1f7, 0x1f7, 1, -56), (0x1f8, 0x21e, 2, 1),
  (0x220, 0x220, 1, -130), (0x222, 0x232, 2, 1), (0x23a, 0x23a, 1, 10795),
  (0x23b, 0x23b, 1, 1), (0x23d, 0x23d, 1, -163), (0x23e, 0x23e, 1, 10792),
  (0x241, 0x241, 1, 1), (0x243, 0x243, 1, -195), (0x244, 0x244, 1, 69),
  (0x245, 0x245, 1, 71), (0x246, 0x24e, 2, 1), (0x370, 0x372, 2, 1),
  (0x376, 0x376, 1, 1), (0x37f, 0x37f, 1, 116), (0x386, 0x386, 1, 38),
  (0x388, 0x38a, 1, 37), (0x38c, 0x38c, 1, 64), (0x38e, 0x38f, 1, 63),
  (0x391, 0x3a1, 1, 32), (0x3a3, 0x3ab, 1, 32), (0x3cf, 0x3cf, 1, 8),
  (0x3d8, 0x3ee, 2, 1), (0x3f4, 0x3f4, 1, -60), (0x3f7, 0x3f7, 1, 1),
  (0x3f9, 0x3f9, 1, -7), (0x3fa, 0x3fa, 1, 1), (0x3fd, 0x3ff, 1, -130),
  (0x400, 0x40f, 1, 80), (0x410, 0x42f, 1, 32), (0x460, 0x480, 2, 1),
  (0x48a, 0x4be, 2, 1), (0x4c0, 0x4c0, 1, 15), (0x4c1, 0x4cd, 2, 1),
  (0x4d0, 0x52e, 2, 1), (0x531, 0x556, 1, 48), (0x10a0, 0x10c5, 1, 7264),
  (0x10c7, 0x10c7, 1, 7264), (0x10cd, 0x10cd, 1, 7264), (0x13a0, 0x13ef, 1, 38864),
  (0x13f0, 0x13f5, 1, 8), (0x1c90, 0x1cba, 1, -3008), (0x1cbd, 0x1cbf, 1, -3008),
  (0x1e00, 0x1e94, 2, 1), (0x1e9e, 0x1e9e, 1, -7615), (0x1ea0, 0x1efe, 2, 1),
  (0x1f08, 0x1f0f, 1, -8), (0x1f18, 0x1f1d, 1, -8), (0x1f28, 0x1f2f, 1, -8),
  (0x1f38, 0x1f3f, 1, -8), (0x1f48, 0x1f4d, 1, -8), (0x1f59, 0x1f5f, 2, -8),
  (0x1f68, 0x1f6f, 1, -8), (0x1f88, 0x1f8f, 1, -8), (0x1f98, 0x1f9f, 1, -8),
  (0x1fa8, 0x1faf, 1, -8), (0x1fb8, 0x1fb9, 1, -8), (0x1fba, 0x1fbb, 1, -74),
  (0x1fbc, 0x1fbc, 1, -9), (0x1fc8, 0x1fcb, 1, -86), (0x1fcc, 0x1fcc, 1, -9),
  (0x1fd8, 0x1fd9, 1, -8), (0x1fda, 0x1fdb, 1, -100), (0x1fe8, 0x1fe9, 1, -8),
  (0x1fea, 0x1feb, 1, -112), (0x1fec, 0x1fec, 1, -7), (0x1ff8, 0x1ff9, 1, -128),
  (0x1ffa, 0x1ffb, 1, -126), (0x1ffc, 0x1ffc, 1, -9), (0x2126, 0x2126, 1, -7517),
  (0x212a, 0x212a, 1, -8383), (0x212b, 0x212b, 1, -8262), (0x2132, 0x2132, 1, 28),
  (0x2160, 0x216f, 1, 16), (0x2183, 0x2183, 1, 1), (0x24b6, 0x24cf, 1, 26),
  (0x2c00, 0x2c2f, 1, 48), (0x2c60, 0x2c60, 1, 1), (0x2c62, 0x2c62, 1, -10743),
  (0x2c63, 0x2c63, 1, -3814), (0x2c64, 0x2c64, 1, -10727), (0x2c67, 0x2c6b, 2, 1),
  (0x2c6d, 0x2c6d, 1, -10780), (0x2c6e, 0x2c6e, 1, -10749), (0x2c6f, 0x2c6f, 1, -10783),
  (0x2c70, 0x2c70, 1, -10782), (0x2c72, 0x2c72, 1, 1), (0x2c75, 0x2c75, 1, 1),
  (0x2c7e, 0x2c7f, 1, -10815), (0x2c80, 0x2ce2, 2, 1), (0x2ceb, 0x2ced, 2, 1),
  (0x2cf2, 0x2cf2, 1, 1), (0xa640, 0xa66c, 2, 1), (0xa680, 0xa69a, 2, 1),
  (0xa722, 0xa72e, 2, 1), (0xa732, 0xa76e, 2, 1), (0xa779, 0xa77b, 2, 1),
  (0xa77d, 0xa77d, 1, -35332), (0xa77e, 0xa786, 2, 1), (0xa78b, 0xa78b, 1, 1),
  (0xa78d, 0xa78d, 1, -42280), (0xa790, 0xa792, 2, 1), (0xa796, 0xa7a8, 2, 1),
  (0xa7aa, 0xa7aa, 1, -42308), (0xa7ab, 0xa7ab, 1, -42319), (0xa7ac, 0xa7ac, 1, -42315),
  (0xa7ad, 0xa7ad, 1, -42305), (0xa7ae, 0xa7ae, 1, -42308), (0xa7b0, 0xa7b0, 1, -42258),
  (0xa7b1, 0xa7b1, 1, -42282), (0xa7b2, 0xa7b2, 1, -42261), (0xa7b3, 0xa7b3, 1, 928),
  (0xa7b4, 0xa7c2, 2, 1), (0xa7c4, 0xa7c4, 1, -48), (0xa7c5, 0xa7c5, 1, -42307),
  (0xa7c6, 0xa7c6, 1, -35384), (0xa7c7, 0xa7c9, 2, 1), (0xa7d0, 0xa7d0, 1, 1),
  (0xa7d6, 0xa7d8, 2, 1), (0xa7f5, 0xa7f5, 1, 1), (0xff21, 0xff3a, 1, 32),
  (0x10400, 0x10427, 1, 40), (0x104b0, 0x104d3, 1, 40), (0x10570, 0x1057a, 1, 39),
  (0x1057c, 0x1058a, 1, 39), (0x1058c, 0x10592, 1, 39), (0x10594, 0x10595, 1, 39),
  (0x10c80, 0x10cb2, 1, 64), (0x118a0, 0x118bf, 1, 32), (0x16e40, 0x16e5f, 1, 32),
  (0x1e900, 0x1e921, 1, 34)
]

/-- Code points with the Unicode `Cased` property (Unicode 14.0), as
closed ranges; used by the final-sigma context rule. -/
def casedRanges : List (Nat × Nat) := [
  (0x41, 0x5a), (0x61, 0x7a), (0xaa, 0xaa), (0xb5, 0xb5), (0xba, 0xba),
  (0xc0, 0xd6), (0xd8, 0xf6), (0xf8, 0x1ba), (0x1bc, 0x1bf), (0x1c4, 0x293),
  (0x295, 0x2af), (0x370, 0x373), (0x376, 0x377), (0x37b, 0x37d), (0x37f, 0x37f),
  (0x386, 0x386), (0x388, 0x38a), (0x38c, 0x38c), (0x38e, 0x3a1), (0x3a3, 0x3f5),
  (0x3f7, 0x481), (0x48a, 0x52f), (0x531, 0x556), (0x560, 0x588), (0x10a0, 0x10c5),
  (0x10c7, 0x10c7), (0x10cd, 0x10cd), (0x10d0, 0x10fa), (0x10fd, 0x10ff), (0x13a0, 0x13f5),
  (0x13f8, 0x13fd), (0x1c80, 0x1c88), (0x1c90, 0x1cba), (0x1cbd, 0x1cbf), (0x1d00, 0x1d2b),
  (0x1d6b, 0x1d77), (0x1d79, 0x1d9a), (0x1e00, 0x1f15), (0x1f18, 0x1f1d), (0x1f20, 0x1f45),
  (0x1f48, 0x1f4d), (0x1f50, 0x1f57), (0x1f59, 0x1f59), (0x1f5b, 0x1f5b), (0x1f5d, 0x1f5d),
  (0x1f5f, 0x1f7d), (0x1f80, 0x1fb4), (0x1fb6, 0x1fbc), (0x1fbe, 0x1fbe), (0x1fc2, 0x1fc4),
  (0x1fc6, 0x1fcc), (0x1fd0, 0x1fd3), (0x1fd6, 0x1fdb), (0x1fe0, 0x1fec), (0x1ff2, 0x1ff4),
  (0x1ff6, 0x1ffc), (0x2102, 0x2102), (0x2107, 0x2107), (0x210a, 0x2113), (0x2115, 0x2115),
  (0x2119, 0x211d), (0x2124, 0x2124), (0x2126, 0x2126), (0x2128, 0x2128), (0x212a, 0x212d),
  (0x212f, 0x2134), (0x2139, 0x2139), (0x213c, 0x213f), (0x2145, 0x2149), (0x214e, 0x214e),
  (0x2160, 0x217f), (0x2183, 0x2184), (0x24b6, 0x24e9), (0x2c00, 0x2c7b), (0x2c7e, 0x2ce4),
  (0x2ceb, 0x2cee), (0x2cf2, 0x2cf3), (0x2d00, 0x2d25), (0x2d27, 0x2d27), (0x2d2d, 0x2d2d),
  (0xa640, 0xa66d), (0xa680, 0xa69b), (0xa722, 0xa76f), (0xa771, 0xa787), (0xa78b, 0xa78e),
  (0xa790, 0xa7ca), (0xa7d0, 0xa7d1), (0xa7d3, 0xa7d3), (0xa7d5, 0xa7d9), (0xa7f5, 0xa7f6),
  (0xa7fa, 0xa7fa), (0xab30, 0xab5a), (0xab60, 0xab68), (0xab70, 0xabbf), (0xfb00, 0xfb06),
  (0xfb13, 0xfb17), (0xff21, 0xff3a), (0xff41, 0xff5a), (0x10400, 0x1044f), (0x104b0, 0x104d3),
  (0x104d8, 0x104fb), (0x10570, 0x1057a), (0x1057c, 0x1058a), (0x1058c, 0x10592), (0x10594, 0x10595),
  (0x10597, 0x105a1), (0x105a3, 0x105b1), (0x105b3, 0x105b9), (0x105bb, 0x105bc), (0x10c80, 0x10cb2),
  (0x10cc0, 0x10cf2), (0x118a0, 0x118df), (0x16e40, 0x16e7f), (0x1d400, 0x1d454), (0x1d456, 0x1d49c),
  (0x1d49e, 0x1d49f), (0x1d4a2, 0x1d4a2), (0x1d4a5, 0x1d4a6), (0x1d4a9, 0x1d4ac), (0x1d4ae, 0x1d4b9),
  (0x1d4bb, 0x1d4bb), (0x1d4bd, 0x1d4c3), (0x1d4c5, 0x1d505), (0x1d507, 0x1d50a), (0x1d50d, 0x1d514),
  (0x1d516, 0x1d51c), (0x1d51e, 0x1d539), (0x1d53b, 0x1d53e), (0x1d540, 0x1d544), (0x1d546, 0x1d546),
  (0x1d54a, 0x1d550), (0x1d552, 0x1d6a5), (0x1d6a8, 0x1d6c0), (0x1d6c2, 0x1d6da), (0x1d6dc, 0x1d6fa),
  (0x1d6fc, 0x1d714), (0x1d716, 0x1d734), (0x1d736, 0x1d74e), (0x1d750, 0x1d76e), (0x1d770, 0x1d788),
  (0x1d78a, 0x1d7a8), (0x1d7aa, 0x1d7c2), (0x1d7c4, 0x1d7cb), (0x1df00, 0x1df09), (0x1df0b, 0x1df1e),
  (0x1e900, 0x1e943), (0x1f130, 0x1f149), (0x1f150, 0x1f169), (0x1f170, 0x1f189)
]

/-- Code points with the Unicode `Case_Ignorable` property (Unicode
14.0), as closed ranges; used by the final-sigma context rule. -/
def caseIgnorableRanges : List (Nat × Nat) := [
  (0x27, 0x27), (0x2e, 0x2e), (0x3a, 0x3a), (0x5e, 0x5e), (0x60, 0x60),
  (0xa8, 0xa8), (0xad, 0xad), (0xaf, 0xaf), (0xb4, 0xb4), (0xb7, 0xb8),
  (0x2b0, 0x36f), (0x374, 0x375), (0x37a, 0x37a), (0x384, 0x385), (0x387, 0x387),
  (0x483, 0x489), (0x559, 0x559), (0x55f, 0x55f), (0x591, 0x5bd), (0x5bf, 0x5bf),
  (0x5c1, 0x5c2), (0x5c4, 0x5c5), (0x5c7, 0x5c7), (0x5f4, 0x5f4), (0x600, 0x605),
  (0x610, 0x61a), (0x61c, 0x61c), (0x640, 0x640), (0x64b, 0x65f), (0x670, 0x670),
  (0x6d6, 0x6dd), (0x6df, 0x6e8), (0x6ea, 0x6ed), (0x70f, 0x70f), (0x711, 0x711),
  (0x730, 0x74a), (0x7a6, 0x7b0), (0x7eb, 0x7f5), (0x7fa, 0x7fa), (0x7fd, 0x7fd),
  (0x816, 0x82d), (0x859, 0x85b), (0x888, 0x888), (0x890, 0x891), (0x898, 0x89f),
  (0x8c9, 0x902), (0x93a, 0x93a), (0x93c, 0x93c), (0x941, 0x948), (0x94d, 0x94d),
  (0x951, 0x957), (0x962, 0x963), (0x971, 0x971), (0x981, 0x981), (0x9bc, 0x9bc),
  (0x9c1, 0x9c4), (0x9cd, 0x9cd), (0x9e2, 0x9e3), (0x9fe, 0x9fe), (0xa01, 0xa02),
  (0xa3c, 0xa3c), (0xa41, 0xa42), (0xa47, 0xa48), (0xa4b, 0xa4d), (0xa51, 0xa51),
  (0xa70, 0xa71), (0xa75, 0xa75), (0xa81, 0xa82), (0xabc, 0xabc), (0xac1, 0xac5),
  (0xac7, 0xac8), (0xacd, 0xacd), (0xae2, 0xae3), (0xafa, 0xaff), (0xb01, 0xb01),
  (0xb3c, 0xb3c), (0xb3f, 0xb3f), (0xb41, 0xb44), (0xb4d, 0xb4d), (0xb55, 0xb56),
  (0xb62, 0xb63), (0xb82, 0xb82), (0xbc0, 0xbc0), (0xbcd, 0xbcd), (0xc00, 0xc00),
  (0xc04, 0xc04), (0xc3c, 0xc3c), (0xc3e, 0xc40), (0xc46, 0xc48), (0xc4a, 0xc4d),
  (0xc55, 0xc56), (0xc62, 0xc63), (0xc81, 0xc81), (0xcbc, 0xcbc), (0xcbf, 0xcbf),
  (0xcc6, 0xcc6), (0xccc, 0xccd), (0xce2, 0xce3), (0xd00, 0xd01), (0xd3b, 0xd3c),
  (0xd41, 0xd44), (0xd4d, 0xd4d), (0xd62, 0xd63), (0xd81, 0xd81), (0xdca, 0xdca),
  (0xdd2, 0xdd4), (0xdd6, 0xdd6), (0xe31, 0xe31), (0xe34, 0xe3a), (0xe46, 0xe4e),
  (0xeb1, 0xeb1), (0xeb4, 0xebc), (0xec6, 0xec6), (0xec8, 0xecd), (0xf18, 0xf19),
  (0xf35, 0xf35), (0xf37, 0xf37), (0xf39, 0xf39), (0xf71, 0xf7e), (0xf80, 0xf84),
  (0xf86, 0xf87), (0xf8d, 0xf97), (0xf99, 0xfbc), (0xfc6, 0xfc6), (0x102d, 0x1030),
  (0x1032, 0x1037), (0x1039, 0x103a), (0x103d, 0x103e), (0x1058, 0x1059), (0x105e, 0x1060),
  (0x1071, 0x1074), (0x1082, 0x1082), (0x1085, 0x1086), (0x108d, 0x108d), (0x109d, 0x109d),
  (0x10fc, 0x10fc), (0x135d, 0x135f), (0x1712, 0x1714), (0x1732, 0x1733), (0x1752, 0x1753),
  (0x1772, 0x1773), (0x17b4, 0x17b5), (0x17b7, 0x17bd), (0x17c6, 0x17c6), (0x17c9, 0x17d3),
  (0x17d7, 0x17d7), (0x17dd, 0x17dd), (0x180b, 0x180f), (0x1843, 0x1843), (0x1885, 0x1886),
  (0x18a9, 0x18a9), (0x1920, 0x1922), (0x1927, 0x1928), (0x1932, 0x1932), (0x1939, 0x193b),
  (0x1a17, 0x1a18), (0x1a1b, 0x1a1b), (0x1a56, 0x1a56), (0x1a58, 0x1a5e), (0x1a60, 0x1a60),
  (0x1a62, 0x1a62), (0x1a65, 0x1a6c), (0x1a73, 0x1a7c), (0x1a7f, 0x1a7f), (0x1aa7, 0x1aa7),
  (0x1ab0, 0x1ace), (0x1b00, 0x1b03), (0x1b34, 0x1b34), (0x1b36, 0x1b3a), (0x1b3c, 0x1b3c),
  (0x1b42, 0x1b42), (0x1b6b, 0x1b73), (0x1b80, 0x1b81), (0x1ba2, 0x1ba5), (0x1ba8, 0x1ba9),
  (0x1bab, 0x1bad), (0x1be6, 0x1be6), (0x1be8, 0x1be9), (0x1bed, 0x1bed), (0x1bef, 0x1bf1),
  (0x1c2c, 0x1c33), (0x1c36, 0x1c37), (0x1c78, 0x1c7d), (0x1cd0, 0x1cd2), (0x1cd4, 0x1ce0),
  (0x1ce2, 0x1ce8), (0x1ced, 0x1ced), (0x1cf4, 0x1cf4), (0x1cf8, 0x1cf9), (0x1d2c, 0x1d6a),
  (0x1d78, 0x1d78), (0x1d9b, 0x1dff), (0x1fbd, 0x1fbd), (0x1fbf, 0x1fc1), (0x1fcd, 0x1fcf),
  (0x1fdd, 0x1fdf), (0x1fed, 0x1fef), (0x1ffd, 0x1ffe), (0x200b, 0x200f), (0x2018, 0x2019),
  (0x2024, 0x2024), (0x2027, 0x2027), (0x202a, 0x202e), (0x2060, 0x2064), (0x2066, 0x206f),
  (0x2071, 0x2071), (0x207f, 0x207f), (0x2090, 0x209c), (0x20d0, 0x20f0), (0x2c7c, 0x2c7d),
  (0x2cef, 0x2cf1), (0x2d6f, 0x2d6f), (0x2d7f, 0x2d7f), (0x2de0, 0x2dff), (0x2e2f, 0x2e2f),
  (0x3005, 0x3005), (0x302a, 0x302d), (0x3031, 0x3035), (0x303b, 0x303b), (0x3099, 0x309e),
  (0x30fc, 0x30fe), (0xa015, 0xa015), (0xa4f8, 0xa4fd), (0xa60c, 0xa60c), (0xa66f, 0xa672),
  (0xa674, 0xa67d), (0xa67f, 0xa67f), (0xa69c, 0xa69f), (0xa6f0, 0xa6f1), (0xa700, 0xa721),
  (0xa770, 0xa770), (0xa788, 0xa78a), (0xa7f2, 0xa7f4), (0xa7f8, 0xa7f9), (0xa802, 0xa802),
  (0xa806, 0xa806), (0xa80b, 0xa80b), (0xa825, 0xa826), (0xa82c, 0xa82c), (0xa8c4, 0xa8c5),
  (0xa8e0, 0xa8f1), (0xa8ff, 0xa8ff), (0xa926, 0xa92d), (0xa947, 0xa951), (0xa980, 0xa982),
  (0xa9b3, 0xa9b3), (0xa9b6, 0xa9b9), (0xa9bc, 0xa9bd), (0xa9cf, 0xa9cf), (0xa9e5, 0xa9e6),
  (0xaa29, 0xaa2e), (0xaa31, 0xaa32), (0xaa35, 0xaa36), (0xaa43, 0xaa43), (0xaa4c, 0xaa4c),
  (0xaa70, 0xaa70), (0xaa7c, 0xaa7c), (0xaab0, 0xaab0), (0xaab2, 0xaab4), (0xaab7, 0xaab8),
  (0xaabe, 0xaabf), (0xaac1, 0xaac1), (0xaadd, 0xaadd), (0xaaec, 0xaaed), (0xaaf3, 0xaaf4),
  (0xaaf6, 0xaaf6), (0xab5b, 0xab5f), (0xab69, 0xab6b), (0xabe5, 0xabe5), (0xabe8, 0xabe8),
  (0xabed, 0xabed), (0xfb1e, 0xfb1e), (0xfbb2, 0xfbc2), (0xfe00, 0xfe0f), (0xfe13, 0xfe13),
  (0xfe20, 0xfe2f), (0xfe52, 0xfe52), (0xfe55, 0xfe55), (0xfeff, 0xfeff), (0xff07, 0xff07),
  (0xff0e, 0xff0e), (0xff1a, 0xff1a), (0xff3e, 0xff3e), (0xff40, 0xff40), (0xff70, 0xff70),
  (0xff9e, 0xff9f), (0xffe3, 0xffe3), (0xfff9, 0xfffb), (0x101fd, 0x101fd), (0x102e0, 0x102e0),
  (0x10376, 0x1037a), (0x10780, 0x10785), (0x10787, 0x107b0), (0x107b2, 0x107ba), (0x10a01, 0x10a03),
  (0x10a05, 0x10a06), (0x10a0c, 0x10a0f), (0x10a38, 0x10a3a), (0x10a3f, 0x10a3f), (0x10ae5, 0x10ae6),
  (0x10d24, 0x10d27), (0x10eab, 0x10eac), (0x10f46, 0x10f50), (0x10f82, 0x10f85), (0x11001, 0x11001),
  (0x11038, 0x11046), (0x11070, 0x11070), (0x11073, 0x11074), (0x1107f, 0x11081), (0x110b3, 0x110b6),
  (0x110b9, 0x110ba), (0x110bd, 0x110bd), (0x110c2, 0x110c2), (0x110cd, 0x110cd), (0x11100, 0x11102),
  (0x11127, 0x1112b), (0x1112d, 0x11134), (0x11173, 0x11173), (0x11180, 0x11181), (0x111b6, 0x111be),
  (0x111c9, 0x111cc), (0x111cf, 0x111cf), (0x1122f, 0x11231), (0x11234, 0x11234), (0x11236, 0x11237),
  (0x1123e, 0x1123e), (0x112df, 0x112df), (0x112e3, 0x112ea), (0x11300, 0x11301), (0x1133b, 0x1133c),
  (0x11340, 0x11340), (0x11366, 0x1136c), (0x11370, 0x11374), (0x11438, 0x1143f), (0x11442, 0x11444),
  (0x11446, 0x11446), (0x1145e, 0x1145e), (0x114b3, 0x114b8), (0x114ba, 0x114ba), (0x114bf, 0x114c0),
  (0x114c2, 0x114c3), (0x115b2, 0x115b5), (0x115bc, 0x115bd), (0x115bf, 0x115c0), (0x115dc, 0x115dd),
  (0x11633, 0x1163a), (0x1163d, 0x1163d), (0x1163f, 0x11640), (0x116ab, 0x116ab), (0x116ad, 0x116ad),
  (0x116b0, 0x116b5), (0x116b7, 0x116b7), (0x1171d, 0x1171f), (0x11722, 0x11725), (0x11727, 0x1172b),
  (0x1182f, 0x11837), (0x11839, 0x1183a), (0x1193b, 0x1193c), (0x1193e, 0x1193e), (0x11943, 0x11943),
  (0x119d4, 0x119d7), (0x119da, 0x119db), (0x119e0, 0x119e0), (0x11a01, 0x11a0a), (0x11a33, 0x11a38),
  (0x11a3b, 0x11a3e), (0x11a47, 0x11a47), (0x11a51, 0x11a56), (0x11a59, 0x11a5b), (0x11a8a, 0x11a96),
  (0x11a98, 0x11a99), (0x11c30, 0x11c36), (0x11c38, 0x11c3d), (0x11c3f, 0x11c3f), (0x11c92, 0x11ca7),
  (0x11caa, 0x11cb0), (0x11cb2, 0x11cb3), (0x11cb5, 0x11cb6), (0x11d31, 0x11d36), (0x11d3a, 0x11d3a),
  (0x11d3c, 0x11d3d), (0x11d3f, 0x11d45), (0x11d47, 0x11d47), (0x11d90, 0x11d91), (0x11d95, 0x11d95),
  (0x11d97, 0x11d97), (0x11ef3, 0x11ef4), (0x13430, 0x13438), (0x16af0, 0x16af4), (0x16b30, 0x16b36),
  (0x16b40, 0x16b43), (0x16f4f, 0x16f4f), (0x16f8f, 0x16f9f), (0x16fe0, 0x16fe1), (0x16fe3, 0x16fe4),
  (0x1aff0, 0x1aff3), (0x1aff5, 0x1affb), (0x1affd, 0x1affe), (0x1bc9d, 0x1bc9e), (0x1bca0, 0x1bca3),
  (0x1cf00, 0x1cf2d), (0x1cf30, 0x1cf46), (0x1d167, 0x1d169), (0x1d173, 0x1d182), (0x1d185, 0x1d18b),
  (0x1d1aa, 0x1d1ad), (0x1d242, 0x1d244), (0x1da00, 0x1da36), (0x1da3b, 0x1da6c), (0x1da75, 0x1da75),
  (0x1da84, 0x1da84), (0x1da9b, 0x1da9f), (0x1daa1, 0x1daaf), (0x1e000, 0x1e006), (0x1e008, 0x1e018),
  (0x1e01b, 0x1e021), (0x1e023, 0x1e024), (0x1e026, 0x1e02a), (0x1e130, 0x1e13d), (0x1e2ae, 0x1e2ae),
  (0x1e2ec, 0x1e2ef), (0x1e8d0, 0x1e8d6), (0x1e944, 0x1e94b), (0x1f3fb, 0x1f3ff), (0xe0001, 0xe0001),
  (0xe0020, 0xe007f), (0xe0100, 0xe01ef)
]

/-- Membership of a code point in a list of closed ranges. -/
def inRanges (rs : List (Nat × Nat)) (n : Nat) : Bool :=
  rs.any (fun r => decide (r.1 ≤ n) && decide (n ≤ r.2))

/-- The lowercase delta of a code point under the simple mapping
(`0` when the code point has no lowercase mapping). -/
def charLowerDelta (n : Nat) : Int :=
  match simpleLowerRules.find? (fun r =>
      decide (r.1 ≤ n) && decide (n ≤ r.2.1) &&
        decide ((n - r.1) % r.2.2.1 = 0)) with
  | some r => r.2.2.2
  | none => 0

/-- Simple (one-to-one) Unicode lowercase of a single character. -/
def lowerMapChar (c : Char) : Char :=
  Char.ofNat ((Int.ofNat c.toNat + charLowerDelta c.toNat).toNat)

/-- Unicode `Cased` property. -/
def isCased (c : Char) : Bool := inRanges casedRanges c.toNat

/-- Unicode `Case_Ignorable` property. -/
def isCaseIgnorable (c : Char) : Bool := inRanges caseIgnorableRanges c.toNat

/-- Scanning outward from a capital sigma (over a nearest-first character
list), is the nearest non-case-ignorable character cased?  Applied to the
preceding and the following context in the Final_Sigma condition of
Unicode Default Case Conversion (ECMA-262 `toLowerCase`). -/
def nearestIsCased : List Char → Bool
  | [] => false
  | c :: rest => if isCaseIgnorable c then nearestIsCased rest else isCased c

/-- Character-list worker for `jsToLowerCase`: `before` holds the already
processed characters nearest-first (the preceding context).  Capital sigma
`Σ` (U+03A3) lowercases to final sigma `ς` when the Final_Sigma condition
holds and to `σ` otherwise; `İ` (U+0130) lowercases to `i` followed by a
combining dot above (the one unconditional one-to-many mapping); every
other character takes its simple lowercase mapping. -/
def jsLowerAux : List Char → List Char → List Char
  | _, [] => []
  | before, c :: rest =>
    if c = '\u03A3' then
      (if nearestIsCased before && !nearestIsCased rest then '\u03C2'
       else '\u03C3') :: jsLowerAux (c :: before) rest
    else if c = '\u0130' then
      'i' :: '\u0307' :: jsLowerAux (c :: before) rest
    else
      lowerMapChar c :: jsLowerAux (c :: before) rest

/-- JS `String.prototype.toLowerCase`: the Unicode Default Case
Conversion to lowercase (simple mappings plus the `İ` special mapping and
the context-sensitive final sigma), per ECMA-262. -/
def jsToLowerCase (s : String) : String := ⟨jsLowerAux [] s.toList⟩

/-- The characters stripped by JS `String.prototype.trim`: the ECMA-262
WhiteSpace production (TAB, VT, FF, SP, NBSP, ZWNBSP and every
Space_Separator code point: U+1680, U+2000–U+200A, U+202F, U+205F,
U+3000) together with the LineTerminator production (LF, CR, LS, PS). -/
def isJsWhitespace (c : Char) : Bool :=
  let n := c.toNat
  (decide (0x9 ≤ n) && decide (n ≤ 0xD)) || n == 0x20 || n == 0xA0 ||
    n == 0x1680 || (decide (0x2000 ≤ n) && decide (n ≤ 0x200A)) ||
    n == 0x2028 || n == 0x2029 || n == 0x202F || n == 0x205F ||
    n == 0x3000 || n == 0xFEFF

/-- JS `String.prototype.trim`: strip leading and trailing whitespace. -/
def jsTrim (s : String) : String :=
  ⟨((s.toList.dropWhile isJsWhitespace).reverse.dropWhile
      isJsWhitespace).reverse⟩

/-- Auxiliary for `jsIncludes`: does `sub` occur at the head of `hay`? -/
def startsWithList : List Char → List Char → Bool
  | _, [] => true
  | [], _ :: _ => false
  | c :: cs, d :: ds => c == d && startsWithList cs ds

/-- Auxiliary for `jsIncludes`: does `sub` occur anywhere in `hay`? -/
def hasSubList : List Char → List Char → Bool
  | [], sub => startsWithList [] sub
  | c :: cs, sub => startsWithList (c :: cs) sub || hasSubList cs sub

/-- JS `String.prototype.includes`: `jsIncludes s sub` is `s.includes(sub)`. -/
def jsIncludes (s sub : String) : Bool := hasSubList s.toList sub.toList

/-! ## The query pipeline (`filterAndSortImages`, lines 629–662) -/

/-- The search predicate applied when `searchQuery.trim()` is truthy
(lines 634–637):
`img.prompt.toLowerCase().includes(q.toLowerCase()) ||
 img.filename?.toLowerCase().includes(q.toLowerCase())`
(the optional chain on a missing `filename` yields `undefined`, which is
falsy). -/
def matchesSearch (searchQuery : String) (img : GalleryImage) : Bool :=
  jsIncludes (jsToLowerCase img.prompt) (jsToLowerCase searchQuery) ||
    (match img.filename with
     | some f => jsIncludes (jsToLowerCase f) (jsToLowerCase searchQuery)
     | none => false)

/-- The comparator passed to `filtered.sort` (lines 646–659), returning the
JS number as an `Int`. -/
def sortComparator (sortBy : String) (a b : GalleryImage) : Int :=
  if sortBy = "newest" then b.createdAt - a.createdAt
  else if sortBy = "oldest" then a.createdAt - b.createdAt
  else if sortBy = "favorites" then
    if a.isFavorite && !b.isFavorite then -1
    else if !a.isFavorite && b.isFavorite then 1
    else b.createdAt - a.createdAt
  else 0

/-- The `le` relation induced by the comparator, under which the ES2019
stable sort orders the array. -/
def sortLe (sortBy : String) (a b : GalleryImage) : Bool :=
  sortComparator sortBy a b ≤ 0

/-- The two filtering stages of `filterAndSortImages` (lines 632–643):
the search filter runs only when `searchQuery.trim()` is truthy (a
non-empty string), the type filter only when `filterType` is not the
sentinel `"all"`. -/
def applyFilters (images : List GalleryImage)
    (searchQuery filterType : String) : List GalleryImage :=
  let filtered := images
  let filtered :=
    if jsTrim searchQuery ≠ "" then filtered.filter (matchesSearch searchQuery)
    else filtered
  if filterType ≠ "all" then filtered.filter (fun img => img.type = filterType)
  else filtered

/-- Function `filterAndSortImages` (lines 629–662): copy the collection, filter by
search text and type, then stable-sort by the comparator (ES2019
`Array.prototype.sort`, modelled by stable `List.mergeSort`). -/
def filterAndSortImages (images : List GalleryImage)
    (searchQuery filterType sortBy : String) : List GalleryImage :=
  (applyFilters images searchQuery filterType).mergeSort (sortLe sortBy)

/-- The `filterAndSortImages` effect on component state: it only replaces
`filteredImages` (via `setFilteredImages`, line 661); it reads but never
writes `images` and never touches persistence. -/
def filterAndSortOp (searchQuery filterType sortBy : String)
    (s : GalleryState) : GalleryState :=
  { s with filteredImages :=
      filterAndSortImages s.images searchQuery filterType sortBy }

/-! ## Mutating operations (lines 624–684) -/

/-- Function `saveImages` (lines 624–627): `localStorage.setItem` with the full
serialized collection, then `setImages`.  The durable write happens before
the in-memory update. -/
def saveImages (updatedImages : List GalleryImage) (s : GalleryState) :
    GalleryState :=
  { s with
    storedValue := some updatedImages
    writes := s.writes + 1
    images := updatedImages }

/-- The per-record body of the `toggleFavorite` map (line 666):
`img.id === imageId ? { ...img, isFavorite: !img.isFavorite } : img`. -/
def toggleImage (imageId : String) (img : GalleryImage) : GalleryImage :=
  if img.id = imageId then { img with isFavorite := !img.isFavorite } else img

/-- The list produced inside `toggleFavorite` (lines 665–667). -/
def toggleFavoriteList (imageId : String) (images : List GalleryImage) :
    List GalleryImage :=
  images.map (toggleImage imageId)

/-- Function `toggleFavorite` (lines 664–674): map the toggle over the collection
and persist via `saveImages`.  Note: there is no lookup failure — an absent
`imageId` leaves every record unchanged and the collection is persisted
regardless. -/
def toggleFavorite (imageId : String) (s : GalleryState) : GalleryState :=
  saveImages (toggleFavoriteList imageId s.images) s

/-- The list produced inside `deleteImage` (line 677):
`images.filter(img => img.id !== imageId)`. -/
def deleteImageList (imageId : String) (images : List GalleryImage) :
    List GalleryImage :=
  images.filter (fun img => img.id ≠ imageId)

/-- Function `deleteImage` (lines 676–684): filter the record out and persist. -/
def deleteImage (imageId : String) (s : GalleryState) : GalleryState :=
  saveImages (deleteImageList imageId s.images) s

/-! ## The load path (`loadImages`, lines 604–622)

`JSON.parse` of the stored blob yields arbitrary objects: any of the
record's fields may be absent or of the wrong shape, and nothing in the
code checks them.  A parsed object is therefore modelled with every field
optional (`RawStoredImage`); `loadImages` spreads each object unchanged and
only replaces `createdAt` by `new Date(img.createdAt)`. -/

/-- One element of the `JSON.parse`d array: all fields optional, `type` an
arbitrary string — exactly the `any` the code maps over at line 611. -/
structure RawStoredImage where
  id : Option String
  url : Option String
  prompt : Option String
  type : Option String
  size : Option String
  quality : Option String
  style : Option String
  scale : Option String
  mode : Option String
  filename : Option String
  createdAt : Option String
  isFavorite : Option Bool
deriving DecidableEq, Repr

/-- The record after line 611's spread: identical to the raw object except
that `createdAt` is now a `Date`, modelled by its `getTime()` value with
`none` for an Invalid Date. -/
structure LoadedImage where
  id : Option String
  url : Option String
  prompt : Option String
  type : Option String
  size : Option String
  quality : Option String
  style : Option String
  scale : Option String
  mode : Option String
  filename : Option String
  createdAt : Option Int
  isFavorite : Option Bool
deriving DecidableEq, Repr

/-- Digit run to a number, `none` on empty or non-digit input. -/
def readNatDigits (cs : List Char) : Option Nat :=
  if cs ≠ [] ∧ cs.all Char.isDigit then
    some (cs.foldl (fun n c => 10 * n + (c.toNat - 48)) 0)
  else none

/-- Days from 1970-01-01 to the given civil UTC date (valid for years
≥ 1970, the range `Date.prototype.toISOString` serializations of this
application's records fall in). -/
def daysSinceEpoch (y mo d : Nat) : Nat :=
  let yAdj := if mo ≤ 2 then y - 1 else y
  let era := yAdj / 400
  let yoe := yAdj - era * 400
  let mp := (mo + 9) % 12
  let doy := (153 * mp + 2) / 5 + (d - 1)
  let doe := yoe * 365 + yoe / 4 - yoe / 100 + doy
  era * 146097 + doe - 719468

/-- Epoch milliseconds of a civil UTC date-time. -/
def epochMillisOfUTC (y mo d h mi sec ms : Nat) : Nat :=
  daysSinceEpoch y mo d * 86400000 + h * 3600000 + mi * 60000 +
    sec * 1000 + ms

/-- Evaluation of `new Date(s).getTime()` for the strings this store actually contains:
`JSON.stringify` serializes a `Date` via `toISOString`, producing
`YYYY-MM-DDTHH:MM:SS.mmmZ`.  Strings of that shape (years 1970–9999) are
decoded to their epoch milliseconds; anything else is modelled as an
Invalid Date (`none`). -/
def parseIsoDate (s : String) : Option Int :=
  let cs := s.toList
  match readNatDigits (cs.take 4), readNatDigits ((cs.drop 5).take 2),
      readNatDigits ((cs.drop 8).take 2), readNatDigits ((cs.drop 11).take 2),
      readNatDigits ((cs.drop 14).take 2), readNatDigits ((cs.drop 17).take 2),
      readNatDigits ((cs.drop 20).take 3) with
  | some y, some mo, some d, some h, some mi, some sec, some ms =>
    if cs.length = 24 ∧ cs.get? 4 = some '-' ∧ cs.get? 7 = some '-' ∧
        cs.get? 10 = some 'T' ∧ cs.get? 13 = some ':' ∧
        cs.get? 16 = some ':' ∧ cs.get? 19 = some '.' ∧
        cs.get? 23 = some 'Z' ∧ 1970 ≤ y ∧ 1 ≤ mo ∧ mo ≤ 12 ∧ 1 ≤ d ∧
        d ≤ 31 ∧ h ≤ 23 ∧ mi ≤ 59 ∧ sec ≤ 59 then
      some (Int.ofNat (epochMillisOfUTC y mo d h mi sec ms))
    else none
  | _, _, _, _, _, _, _ => none

/-- Evaluation of `new Date(x).getTime()` where `x` may be absent (`new Date(undefined)`
is an Invalid Date). -/
def jsNewDateGetTime : Option String → Option Int
  | none => none
  | some s => parseIsoDate s

/-- Line 611's arrow body: `{ ...img, createdAt: new Date(img.createdAt) }`.
Every field other than `createdAt` passes through unexamined. -/
def loadRecord (img : RawStoredImage) : LoadedImage :=
  { id := img.id, url := img.url, prompt := img.prompt, type := img.type
    size := img.size, quality := img.quality, style := img.style
    scale := img.scale, mode := img.mode, filename := img.filename
    createdAt := jsNewDateGetTime img.createdAt
    isFavorite := img.isFavorite }

/-- Function `loadImages` (lines 604–622).  The input is the `JSON.parse` result of
`localStorage.getItem('gallery-images')`: `none` when the key is absent or
the blob fails to parse as an array (the `catch` at line 617 then leaves
`images` at its initial `[]`); `some raws` when it parses.  Each parsed
record is mapped through `loadRecord` — there is no per-record schema
validation of any kind. -/
def loadImages : Option (List RawStoredImage) → List LoadedImage
  | none => []
  | some raws => raws.map loadRecord

/-! ## Spec-side reference for `toggleFavorite` -/

/-- Error taxonomy of the spec (§7); only `NotFound` concerns the claims. -/
inductive GalleryError where
  | notFound
deriving DecidableEq, Repr

/-- Follows the spec's words (§4.1, §7), for comparison with the code's
`toggleFavorite`: "flips `isFavorite` on the record matching `id`; fails
with NotFound if no such record exists; persists the full updated
collection synchronously before returning." -/
def toggleFavoriteSpec (imageId : String) (images : List GalleryImage) :
    Except GalleryError (List GalleryImage) :=
  if images.any (fun img => img.id = imageId) then
    Except.ok (toggleFavoriteList imageId images)
  else
    Except.error GalleryError.notFound

/-! ## Concrete sample data (used by witnesses and counterexamples) -/

/-- A sample record, as the generator tool would insert it. -/
def demoImage : GalleryImage :=
  { id := "1", url := "https://example.com/cat.png", prompt := "a cat"
    type := "generated", size := none, quality := none, style := none
    scale := none, mode := none, filename := some "cat.png"
    createdAt := 100, isFavorite := false }

/-- A second sample record, newer and favorited. -/
def demoImage2 : GalleryImage :=
  { id := "2", url := "https://example.com/dog.png", prompt := "a dog"
    type := "upscaled", size := none, quality := none, style := none
    scale := none, mode := none, filename := none
    createdAt := 200, isFavorite := true }

/-- A third sample record with a non-ASCII prompt, exercising Unicode
case-insensitive search. -/
def demoImage3 : GalleryImage :=
  { id := "3", url := "https://example.com/garten.png"
    prompt := "schöner garten", type := "generated", size := none
    quality := none, style := none, scale := none, mode := none
    filename := none, createdAt := 300, isFavorite := false }

/-- A sample component state holding the two records, already persisted. -/
def demoState : GalleryState :=
  { images := [demoImage, demoImage2], filteredImages := []
    storedValue := some [demoImage, demoImage2], writes := 1 }

/-- The freshly-mounted state: nothing loaded, nothing stored. -/
def emptyState : GalleryState :=
  { images := [], filteredImages := [], storedValue := none, writes := 0 }

/-- A stored object violating the schema: `prompt` missing and `type`
set to a value outside the five-member enum. -/
def badRaw : RawStoredImage :=
  { id := some "7", url := some "https://example.com/x.png", prompt := none
    type := some "mystery", size := none, quality := none, style := none
    scale := none, mode := none, filename := none, createdAt := none
    isFavorite := some true }

/-! ## Helper lemmas -/

theorem toggleImage_id (imageId : String) (img : GalleryImage) :
    (toggleImage imageId img).id = img.id := by
  unfold toggleImage
  split <;> rfl

theorem toggleImage_involutive (imageId : String) (img : GalleryImage) :
    toggleImage imageId (toggleImage imageId img) = img := by
  by_cases h : img.id = imageId
  · subst h
    simp [toggleImage]
  · simp [toggleImage, h]

theorem toggleFavoriteList_involutive (imageId : String)
    (images : List GalleryImage) :
    toggleFavoriteList imageId (toggleFavoriteList imageId images) = images := by
  simp [toggleFavoriteList, List.map_map, Function.comp_def,
    toggleImage_involutive]

/-- C3: each of `toggleFavorite` and `deleteImage` performs exactly one
full-collection write to the persistence collaborator, and after the
operation the durable copy is exactly the (serialization of the)
in-memory collection — write-through.  In `saveImages` the `setItem` call
precedes the `setImages` update, so the write completes before the
mutation does. -/
theorem mutations_write_through (imageId : String) (s : GalleryState) :
    (toggleFavorite imageId s).writes = s.writes + 1 ∧
    (toggleFavorite imageId s).storedValue =
      some (toggleFavorite imageId s).images ∧
    (deleteImage imageId s).writes = s.writes + 1 ∧
    (deleteImage imageId s).storedValue =
      some (deleteImage imageId s).images :=
  ⟨rfl, rfl, rfl, rfl⟩

/-- C8: toggling the same id twice returns the collection — in particular
the matching record's `isFavorite` — to its original value, both on the
in-memory list and at the state level. -/
theorem toggleFavorite_involution (imageId : String) (s : GalleryState)
    (_h : ∃ r ∈ s.images, r.id = imageId) :
    (toggleFavorite imageId (toggleFavorite imageId s)).images = s.images ∧
    toggleFavoriteList imageId (toggleFavoriteList imageId s.images) =
      s.images := by
  refine ⟨?_, toggleFavoriteList_involutive imageId s.images⟩
  show toggleFavoriteList imageId (toggleFavoriteList imageId s.images) =
    s.images
  exact toggleFavoriteList_involutive imageId s.images

/-- Witness for C8 at a concrete state containing the record with id 1. -/
theorem toggleFavorite_involution_witness :
    (toggleFavorite "1" (toggleFavorite "1" demoState)).images =
      demoState.images :=
  (toggleFavorite_involution "1" demoState
    ⟨demoImage, by simp [demoState], rfl⟩).1

/-- C9: `deleteImage` removes every record matching the id; deleting an
absent id leaves the collection unchanged (and the operation has no
failure outcome — `deleteImage` is a total function with no error
channel, so no NotFound can be raised); consequently deleting twice
equals deleting once. -/
theorem deleteImage_idempotent (imageId : String)
    (images : List GalleryImage) :
    (∀ r ∈ deleteImageList imageId images, r.id ≠ imageId) ∧
    deleteImageList imageId (deleteImageList imageId images) =
      deleteImageList imageId images ∧
    ((∀ r ∈ images, r.id ≠ imageId) →
      deleteImageList imageId images = images) := by
  refine ⟨?_, ?_, ?_⟩
  · intro r hr
    have := List.of_mem_filter hr
    simpa using this
  · simp [deleteImageList, List.filter_filter]
  · intro h
    simp only [deleteImageList]
    exact List.filter_eq_self.mpr fun r hr => by simpa using h r hr

/-- Witness for C9 at a concrete collection not containing id 9. -/
theorem deleteImage_idempotent_witness :
    deleteImageList "9" [demoImage, demoImage2] = [demoImage, demoImage2] :=
  (deleteImage_idempotent "9" [demoImage, demoImage2]).2.2
    (by intro r hr; fin_cases hr <;> decide)

/-- C10 (frame condition): `toggleFavorite` preserves the collection's
length and order; at every position the record keeps its `id`, `url`,
`prompt`, `type`, `filename` and `createdAt`; a record whose id does not
match is completely unchanged, and the matching record differs only in
`isFavorite`, which is negated. -/
theorem toggleFavorite_frame (imageId : String) (images : List GalleryImage)
    (i : Nat) (r r' : GalleryImage) (hr : images[i]? = some r)
    (hr' : (toggleFavoriteList imageId images)[i]? = some r') :
    (toggleFavoriteList imageId images).length = images.length ∧
    r'.id = r.id ∧ r'.url = r.url ∧ r'.prompt = r.prompt ∧
    r'.type = r.type ∧ r'.filename = r.filename ∧
    r'.createdAt = r.createdAt ∧
    (r.id ≠ imageId → r' = r) ∧
    (r.id = imageId → r'.isFavorite = !r.isFavorite) := by
  have hmap : (toggleFavoriteList imageId images)[i]? =
      some (toggleImage imageId r) := by
    simp [toggleFavoriteList, hr]
  have heq : r' = toggleImage imageId r := by
    rw [hmap] at hr'
    exact (Option.some_inj.mp hr').symm
  subst heq
  refine ⟨by simp [toggleFavoriteList], ?_⟩
  by_cases h : r.id = imageId <;> simp [toggleImage, h]

/-- Witness for C10 at position 0 of the concrete two-record collection,
toggling id 1. -/
theorem toggleFavorite_frame_witness :
    (toggleFavoriteList "1" [demoImage, demoImage2]).length =
      ([demoImage, demoImage2] : List GalleryImage).length ∧
    (toggleImage "1" demoImage).id = demoImage.id ∧
    (toggleImage "1" demoImage).url = demoImage.url ∧
    (toggleImage "1" demoImage).prompt = demoImage.prompt ∧
    (toggleImage "1" demoImage).type = demoImage.type ∧
    (toggleImage "1" demoImage).filename = demoImage.filename ∧
    (toggleImage "1" demoImage).createdAt = demoImage.createdAt ∧
    (demoImage.id ≠ "1" → toggleImage "1" demoImage = demoImage) ∧
    (demoImage.id = "1" →
      (toggleImage "1" demoImage).isFavorite = !demoImage.isFavorite) :=
  toggleFavorite_frame "1" [demoImage, demoImage2] 0 demoImage
    (toggleImage "1" demoImage) rfl rfl

/-- C1 (counterexample): on the empty collection no record has id 1, so
per the spec `toggleFavoriteSpec` fails with NotFound — but the code's
`toggleFavorite` has no failure outcome at all: it completes normally,
leaves the collection unchanged, and still performs a persistence write of
the (unchanged) collection. -/
theorem toggleFavorite_notFound_counterexample :
    toggleFavoriteSpec "1" [] = Except.error GalleryError.notFound ∧
    (toggleFavorite "1" emptyState).images = [] ∧
    (toggleFavorite "1" emptyState).storedValue = some [] ∧
    (toggleFavorite "1" emptyState).writes = emptyState.writes + 1 :=
  ⟨rfl, rfl, rfl, rfl⟩

/-- C1 (amended): `toggleFavorite(id)` never fails.  It always performs
exactly one persistence write of the full updated collection (the durable
copy equalling the new in-memory collection before the operation
completes); when no record matches `id` the collection is persisted
unchanged (a silent no-op on records, not a NotFound failure); when a
record matches, its `isFavorite` is flipped in the persisted collection. -/
theorem toggleFavorite_never_fails (imageId : String) (s : GalleryState) :
    (toggleFavorite imageId s).writes = s.writes + 1 ∧
    (toggleFavorite imageId s).storedValue =
      some (toggleFavorite imageId s).images ∧
    ((∀ r ∈ s.images, r.id ≠ imageId) →
      (toggleFavorite imageId s).images = s.images) ∧
    (∀ r ∈ s.images, r.id = imageId →
      { r with isFavorite := !r.isFavorite } ∈
        (toggleFavorite imageId s).images) := by
  refine ⟨rfl, rfl, ?_, ?_⟩
  · intro h
    show toggleFavoriteList imageId s.images = s.images
    unfold toggleFavoriteList
    rw [List.map_congr_left fun r hr => ?_, List.map_id]
    simp [toggleImage, h r hr]
  · intro r hr hid
    show { r with isFavorite := !r.isFavorite } ∈
      toggleFavoriteList imageId s.images
    have : toggleImage imageId r = { r with isFavorite := !r.isFavorite } := by
      simp [toggleImage, hid]
    exact this ▸ List.mem_map_of_mem (toggleImage imageId) hr

/-- Witness for C1's amended theorem: toggling the present id 1 flips that
record in the persisted collection; toggling the absent id 9 leaves the
collection unchanged. -/
theorem toggleFavorite_never_fails_witness :
    { demoImage with isFavorite := !demoImage.isFavorite } ∈
      (toggleFavorite "1" demoState).images ∧
    (toggleFavorite "9" demoState).images = demoState.images :=
  ⟨(toggleFavorite_never_fails "1" demoState).2.2.2 demoImage
      (by simp [demoState]) rfl,
   (toggleFavorite_never_fails "9" demoState).2.2.1
      (by intro r hr; fin_cases hr <;> decide)⟩

/-- C2 (counterexample): a stored record with no `prompt` field and the
unrecognized `type` value "mystery" is not dropped by `loadImages`: the
load returns it verbatim (one record, `type` still "mystery", `prompt`
still absent) — schema violations are silently accepted, not rejected. -/
theorem loadImages_no_validation_counterexample :
    (loadImages (some [badRaw])).length = 1 ∧
    (loadImages (some [badRaw])).map (fun r => r.type) = [some "mystery"] ∧
    (loadImages (some [badRaw])).map (fun r => r.prompt) = [none] :=
  ⟨rfl, rfl, rfl⟩

/-- C2 (amended): `loadImages` performs no per-record validation.  Only a
failure to parse the whole blob is handled (the collection then loads as
empty); when the blob parses, every stored record — well-formed or not —
is kept, in order, with `id`, `url`, `prompt`, `type`, `filename` and
`isFavorite` passed through unexamined and only `createdAt` converted to a
`Date`. -/
theorem loadImages_keeps_all_records (raws : List RawStoredImage) :
    loadImages none = [] ∧
    (loadImages (some raws)).length = raws.length ∧
    (loadImages (some raws)).map (fun r => r.id) = raws.map (fun r => r.id) ∧
    (loadImages (some raws)).map (fun r => r.url) =
      raws.map (fun r => r.url) ∧
    (loadImages (some raws)).map (fun r => r.prompt) =
      raws.map (fun r => r.prompt) ∧
    (loadImages (some raws)).map (fun r => r.type) =
      raws.map (fun r => r.type) ∧
    (loadImages (some raws)).map (fun r => r.filename) =
      raws.map (fun r => r.filename) ∧
    (loadImages (some raws)).map (fun r => r.isFavorite) =
      raws.map (fun r => r.isFavorite) := by
  refine ⟨rfl, ?_, ?_, ?_, ?_, ?_, ?_, ?_⟩ <;>
    simp [loadImages, loadRecord, List.map_map, Function.comp_def]

/-! ## Order-theoretic facts about the sort comparator -/

theorem sortLe_trans (sortBy : String) (a b c : GalleryImage)
    (hab : sortLe sortBy a b = true) (hbc : sortLe sortBy b c = true) :
    sortLe sortBy a c = true := by
  unfold sortLe sortComparator at hab hbc ⊢
  by_cases h1 : sortBy = "newest"
  · simp [h1] at hab hbc ⊢
    omega
  · by_cases h2 : sortBy = "oldest"
    · simp [h1, h2] at hab hbc ⊢
      omega
    · by_cases h3 : sortBy = "favorites"
      · cases ha : a.isFavorite <;> cases hb : b.isFavorite <;>
          cases hc : c.isFavorite <;>
          simp [h1, h2, h3, ha, hb, hc] at hab hbc ⊢ <;> omega
      · simp [h1, h2, h3]

theorem sortLe_total (sortBy : String) (a b : GalleryImage) :
    (sortLe sortBy a b || sortLe sortBy b a) = true := by
  unfold sortLe sortComparator
  by_cases h1 : sortBy = "newest"
  · simp [h1]
    omega
  · by_cases h2 : sortBy = "oldest"
    · simp [h1, h2]
      omega
    · by_cases h3 : sortBy = "favorites"
      · cases ha : a.isFavorite <;> cases hb : b.isFavorite <;>
          simp [h1, h2, h3, ha, hb] <;> omega
      · simp [h1, h2, h3]

/-- The result of the query pipeline is sorted by the comparator's `le`. -/
theorem filterAndSortImages_sorted (images : List GalleryImage)
    (searchQuery filterType sortBy : String) :
    (filterAndSortImages images searchQuery filterType sortBy).Pairwise
      (fun a b => sortLe sortBy a b = true) :=
  List.sorted_mergeSort (sortLe_trans sortBy) (sortLe_total sortBy) _

/-- The result of the query pipeline is a permutation of the filtered
collection. -/
theorem filterAndSortImages_perm (images : List GalleryImage)
    (searchQuery filterType sortBy : String) :
    (filterAndSortImages images searchQuery filterType sortBy).Perm
      (applyFilters images searchQuery filterType) :=
  List.mergeSort_perm _ _

/-- C4: with blank (empty or whitespace-only) search text and the type
filter `"all"`, the query returns a permutation of the collection — every
record appears exactly once, only reordered — and the operation neither
mutates the in-memory collection nor touches persistence. -/
theorem query_blank_search_perm (s : GalleryState)
    (searchQuery sortBy : String) (hq : jsTrim searchQuery = "") :
    (filterAndSortImages s.images searchQuery "all" sortBy).Perm s.images ∧
    (filterAndSortOp searchQuery "all" sortBy s).images = s.images ∧
    (filterAndSortOp searchQuery "all" sortBy s).storedValue =
      s.storedValue ∧
    (filterAndSortOp searchQuery "all" sortBy s).writes = s.writes := by
  refine ⟨?_, rfl, rfl, rfl⟩
  have hfilters : applyFilters s.images searchQuery "all" = s.images := by
    simp [applyFilters, hq]
  have hperm := filterAndSortImages_perm s.images searchQuery "all" sortBy
  rwa [hfilters] at hperm

/-- Witness for C4: a whitespace-only search text (an ASCII space
followed by an ideographic space U+3000, both stripped by JS `trim`) over
the concrete two-record state. -/
theorem query_blank_search_perm_witness :
    (filterAndSortImages demoState.images " 　" "all" "newest").Perm
      demoState.images :=
  (query_blank_search_perm demoState " 　" "newest" (by decide)).1

/-- C5: search matching is a case-insensitive substring test against
`prompt` or `filename`: a record whose lowercased `prompt` contains the
lowercased search text is included (provided the type filter does not
exclude it), and a record matching neither `prompt` nor `filename` is
excluded. -/
theorem query_search_matching (images : List GalleryImage)
    (searchQuery filterType sortBy : String) (r : GalleryImage)
    (hq : jsTrim searchQuery ≠ "") (hr : r ∈ images) :
    ((filterType = "all" ∨ r.type = filterType) →
      jsIncludes (jsToLowerCase r.prompt) (jsToLowerCase searchQuery) =
        true →
      r ∈ filterAndSortImages images searchQuery filterType sortBy) ∧
    (matchesSearch searchQuery r = false →
      r ∉ filterAndSortImages images searchQuery filterType sortBy) := by
  have hmem : ∀ x : GalleryImage,
      x ∈ filterAndSortImages images searchQuery filterType sortBy ↔
        x ∈ applyFilters images searchQuery filterType :=
    fun x =>
      (filterAndSortImages_perm images searchQuery filterType sortBy).mem_iff
  constructor
  · intro htf hmatch
    have hsearch : matchesSearch searchQuery r = true := by
      unfold matchesSearch
      simp [hmatch]
    rw [hmem]
    by_cases htf' : filterType = "all"
    · have heq : applyFilters images searchQuery filterType =
          images.filter (matchesSearch searchQuery) := by
        simp [applyFilters, hq, htf']
      rw [heq, List.mem_filter]
      exact ⟨hr, hsearch⟩
    · have hty : r.type = filterType := htf.resolve_left htf'
      have heq : applyFilters images searchQuery filterType =
          (images.filter (matchesSearch searchQuery)).filter
            (fun img => img.type = filterType) := by
        simp [applyFilters, hq, htf']
      rw [heq, List.mem_filter, List.mem_filter]
      exact ⟨⟨hr, hsearch⟩, by simpa using hty⟩
  · intro hnomatch hin
    rw [hmem] at hin
    have hfil : r ∈ images.filter (matchesSearch searchQuery) := by
      by_cases htf' : filterType = "all"
      · have heq : applyFilters images searchQuery filterType =
            images.filter (matchesSearch searchQuery) := by
          simp [applyFilters, hq, htf']
        rwa [heq] at hin
      · have heq : applyFilters images searchQuery filterType =
            (images.filter (matchesSearch searchQuery)).filter
              (fun img => img.type = filterType) := by
          simp [applyFilters, hq, htf']
        rw [heq, List.mem_filter] at hin
        exact hin.1
    rw [List.mem_filter] at hfil
    simp [hnomatch] at hfil

/-- Witness for C5: the non-ASCII search text "SCHÖNER" case-insensitively
matches the prompt "schöner garten" of the third demo record, which is
included; the second demo record (prompt "a dog", no filename) matches
neither field and is excluded. -/
theorem query_search_matching_witness :
    demoImage3 ∈ filterAndSortImages [demoImage2, demoImage3] "SCHÖNER"
      "all" "newest" ∧
    demoImage2 ∉ filterAndSortImages [demoImage2, demoImage3] "SCHÖNER"
      "all" "newest" :=
  ⟨(query_search_matching [demoImage2, demoImage3] "SCHÖNER" "all" "newest"
      demoImage3 (by decide) (by simp)).1 (Or.inl rfl) (by decide),
   (query_search_matching [demoImage2, demoImage3] "SCHÖNER" "all" "newest"
      demoImage2 (by decide) (by simp)).2 (by decide)⟩

/-- C6: sorting by `favorites` puts every favorited record before every
non-favorited one, and within each of the two groups orders records by
`createdAt` descending. -/
theorem query_favorites_order (images : List GalleryImage)
    (searchQuery filterType : String) :
    (filterAndSortImages images searchQuery filterType "favorites").Pairwise
      (fun a b => (b.isFavorite = true → a.isFavorite = true) ∧
        (a.isFavorite = b.isFavorite → b.createdAt ≤ a.createdAt)) := by
  refine
    (filterAndSortImages_sorted images searchQuery filterType
      "favorites").imp ?_
  intro a b hab
  unfold sortLe sortComparator at hab
  cases ha : a.isFavorite <;> cases hb : b.isFavorite <;>
    simp [ha, hb] at hab ⊢ <;> omega

/-- The filtering stages produce a sublist of the collection. -/
theorem applyFilters_sublist (images : List GalleryImage)
    (searchQuery filterType : String) :
    (applyFilters images searchQuery filterType).Sublist images := by
  unfold applyFilters
  split <;> split <;>
    first
      | exact (List.filter_sublist _).trans (List.filter_sublist _)
      | exact List.filter_sublist _
      | exact List.Sublist.refl _

/-- Two permuted lists that are both strictly sorted by an asymmetric
relation are equal. -/
theorem eq_of_perm_of_pairwise_asymm {α : Type} {r : α → α → Prop}
    (hasym : ∀ a b, r a b → r b a → False) :
    ∀ (l₁ l₂ : List α), l₁.Perm l₂ → l₁.Pairwise r → l₂.Pairwise r →
      l₁ = l₂
  | [], _, p, _, _ => p.nil_eq
  | a :: t₁, [], p, _, _ => absurd p.eq_nil (List.cons_ne_nil a t₁)
  | a :: t₁, b :: t₂, p, h₁, h₂ => by
    have hab : a = b := by
      by_contra hne
      have ha2 : a ∈ t₂ := by
        have hmem := p.mem_iff.mp (List.mem_cons_self a t₁)
        rcases List.mem_cons.mp hmem with h | h
        · exact absurd h hne
        · exact h
      have hb1 : b ∈ t₁ := by
        have hmem := p.mem_iff.mpr (List.mem_cons_self b t₂)
        rcases List.mem_cons.mp hmem with h | h
        · exact absurd h.symm hne
        · exact h
      exact hasym a b ((List.pairwise_cons.mp h₁).1 b hb1)
        ((List.pairwise_cons.mp h₂).1 a ha2)
    subst hab
    have ht := eq_of_perm_of_pairwise_asymm hasym t₁ t₂ p.cons_inv
      (List.pairwise_cons.mp h₁).2 (List.pairwise_cons.mp h₂).2
    rw [ht]

/-- C7: on a collection with pairwise distinct `createdAt` values (after
filtering), sorting by `newest` and reversing the result yields exactly
the result of sorting by `oldest`, whatever the search text and type
filter. -/
theorem query_newest_reverse_oldest (images : List GalleryImage)
    (searchQuery filterType : String)
    (hdist : images.Pairwise (fun a b => a.createdAt ≠ b.createdAt)) :
    (filterAndSortImages images searchQuery filterType "newest").reverse =
      filterAndSortImages images searchQuery filterType "oldest" := by
  have hsymm : ∀ {x y : GalleryImage},
      x.createdAt ≠ y.createdAt → y.createdAt ≠ x.createdAt :=
    fun h => h.symm
  have hdistF :
      (applyFilters images searchQuery filterType).Pairwise
        (fun a b => a.createdAt ≠ b.createdAt) :=
    List.Pairwise.sublist (applyFilters_sublist images searchQuery filterType)
      hdist
  have hN := filterAndSortImages_perm images searchQuery filterType "newest"
  have hO := filterAndSortImages_perm images searchQuery filterType "oldest"
  have hNdist := (hN.pairwise_iff hsymm).mpr hdistF
  have hOdist := (hO.pairwise_iff hsymm).mpr hdistF
  have hNstrict :
      (filterAndSortImages images searchQuery filterType "newest").Pairwise
        (fun a b => b.createdAt < a.createdAt) := by
    refine List.Pairwise.imp₂ ?_
      (filterAndSortImages_sorted images searchQuery filterType "newest")
      hNdist
    intro a b hle hne
    unfold sortLe sortComparator at hle
    simp at hle
    omega
  have hOstrict :
      (filterAndSortImages images searchQuery filterType "oldest").Pairwise
        (fun a b => a.createdAt < b.createdAt) := by
    refine List.Pairwise.imp₂ ?_
      (filterAndSortImages_sorted images searchQuery filterType "oldest")
      hOdist
    intro a b hle hne
    unfold sortLe sortComparator at hle
    simp at hle
    omega
  have hRstrict :
      (filterAndSortImages images searchQuery filterType
          "newest").reverse.Pairwise
        (fun a b => a.createdAt < b.createdAt) :=
    List.pairwise_reverse.mpr hNstrict
  have hperm :
      (filterAndSortImages images searchQuery filterType
          "newest").reverse.Perm
        (filterAndSortImages images searchQuery filterType "oldest") :=
    ((List.reverse_perm _).trans hN).trans hO.symm
  exact eq_of_perm_of_pairwise_asymm
    (fun a b h1 h2 => by omega) _ _ hperm hRstrict hOstrict

/-- Witness for C7 at the concrete two-record collection with distinct
timestamps 100 and 200. -/
theorem query_newest_reverse_oldest_witness :
    (filterAndSortImages [demoImage, demoImage2] "" "all"
        "newest").reverse =
      filterAndSortImages [demoImage, demoImage2] "" "all" "oldest" :=
  query_newest_reverse_oldest [demoImage, demoImage2] "" "all" (by decide)
